import Mathlib

set_option maxHeartbeats 1000000
set_option maxRecDepth 8000

/-!
Verification of the SORDFIELDKIT offline basemap cache subsystem.

This file is a shallow embedding of:
- `sord-field-kit/src/lib/storage.ts` — the IndexedDB slot holding the
  cached PMTiles blob together with its provenance URL;
- the `useOffline` hook in `sord-field-kit` (`startCaching`, `pauseCaching`,
  `clearCache`, the enable/disable effect) — the chunked, resumable download
  pipeline with phases idle/downloading/paused/ready/error;
- `sord-field-kit/src/lib/pmtiles.ts` (`resolvePMTiles`) — the tile source
  resolver choosing between the offline blob, a bundled local archive and a
  remote demo archive;
- `src/components/MapView.tsx` (`installBasemap`, `applyTheme`,
  `removeLayers`, `LAYER_DESCRIPTORS`) — the map rebinding logic.

JavaScript binary data (`Blob`/`Uint8Array`) is modelled as a list of byte
values; machine numbers in this subsystem are lengths and counters, so `Nat`
is used throughout. Asynchronous runs are modelled by passing the outcome of
the awaited I/O (the fetch response and the stream of body chunks) as an
explicit value; an `AbortError` rejection is how a cancelled request
terminates, exactly as delivered to the `catch` block of `startCaching`.
-/

/-- Bytes of a JS `Blob` / `Uint8Array`, modelled as a list of byte values. -/
abbrev Blob := List Nat

/-! ## storage.ts -/

/-- A JavaScript value found in the IndexedDB slot `sord-field-kit:pmtiles`.
The slot legitimately holds either a record `then blob, sourceUrl` or (legacy
format) a bare `Blob`; the remaining constructors classify every other
JavaScript value by how `readPMTilesBlob` discriminates it: a falsy value
(fails the `!value` guard), a non-object truthy value (fails
`typeof value === "object"`), an object without a `blob` key (fails
`"blob" in value`), and an object whose `blob` field is not a `Blob`
(fails `record.blob instanceof Blob`). -/
inductive StoredValue where
  | blobVal (b : Blob)
  | recordWithBlob (b : Blob) (sourceUrl : Option String)
  | recordNonBlob (sourceUrl : Option String)
  | objNoBlobKey
  | otherTruthy
  | falsy
deriving DecidableEq

/-- `PMTilesCacheRecord` from storage.ts: the persisted blob plus the URL the
bytes came from (`sourceUrl` optional). -/
structure PMTilesCacheRecord where
  blob : Blob
  sourceUrl : Option String := none
deriving DecidableEq

/-- `readPMTilesBlob` from storage.ts: reads the slot, tolerating the legacy
bare-blob format and returning `null` (here `none`) on anything malformed. -/
def readPMTilesBlob : Option StoredValue → Option PMTilesCacheRecord
  | none => none
  | some (.blobVal b) => some { blob := b }
  | some (.recordWithBlob b url) => some { blob := b, sourceUrl := url }
  | some (.recordNonBlob _) => none
  | some .objNoBlobKey => none
  | some .otherTruthy => none
  | some .falsy => none

/-- `savePMTilesBlob` from storage.ts: the new slot content after
`set(PM_TILES_CACHE_KEY, record)`. -/
def savePMTilesBlob (blob : Blob) (sourceUrl : Option String) : Option StoredValue :=
  some (.recordWithBlob blob sourceUrl)

/-- `clearPMTilesBlob` from storage.ts: the slot content after
`del(PM_TILES_CACHE_KEY)`. -/
def clearPMTilesBlob : Option StoredValue := none

/-! ## The useOffline hook (sord-field-kit MapView.tsx) -/

/-- `OfflinePhase` from the hook. -/
inductive OfflinePhase where
  | idle
  | downloading
  | paused
  | ready
  | error
deriving DecidableEq

/-- `OfflineStatus` from the hook. -/
structure OfflineStatus where
  phase : OfflinePhase
  storedChunks : Nat
  totalChunks : Nat
  bytesStored : Nat
  totalBytes : Option Nat := none
  error : Option String := none
deriving DecidableEq

/-- The React state owned by `useOffline` that the claims are about:
`offlineBlob`, `cachedSourceUrl`, `hasCache` and `status`. -/
structure HookState where
  offlineBlob : Option Blob
  cachedSourceUrl : Option String
  hasCache : Bool
  status : OfflineStatus
deriving DecidableEq

/-- `CHUNK_SIZE = 64 * 1024`. -/
def CHUNK_SIZE : Nat := 64 * 1024

/-- The initial `useState` value of `status` in `useOffline`. -/
def initialStatus : OfflineStatus :=
  { phase := .idle, storedChunks := 0, totalChunks := 0, bytesStored := 0 }

/-- The initial hook state: no blob, no provenance, no cache, idle status. -/
def initialHookState : HookState :=
  { offlineBlob := none, cachedSourceUrl := none, hasCache := false,
    status := initialStatus }

/-- Outcome of reading the streamed response body: either the reader ran to
completion delivering the listed chunks (`done` reached), or the awaited
`reader.read()` rejected after the listed chunks were delivered, with the
given error name and message (`AbortError` when the request was aborted). -/
inductive BodyOutcome where
  | complete (chunks : List Blob)
  | interrupted (chunks : List Blob) (errName : String) (msg : String)

/-- Outcome of `fetch(pmtilesUrl, ...)`: either the promise rejected with the
given error name/message (network failure, or an abort before the response
arrived), or a response arrived carrying an HTTP status, a possibly absent
body, a possibly absent numeric `content-length` header, and the body
stream. -/
inductive FetchOutcome where
  | thrown (errName : String) (msg : String)
  | resp (status : Nat) (hasBody : Bool) (contentLength : Option Nat) (body : BodyOutcome)

/-- `response.ok`: HTTP status in the 2xx range. -/
def responseOk (status : Nat) : Bool :=
  decide (200 ≤ status ∧ status < 300)

/-- `Number(response.headers.get("content-length") ?? "0") || undefined`:
both an absent header and a zero value yield `undefined` (`none`). -/
def parseContentLength : Option Nat → Option Nat
  | none => none
  | some n => if n = 0 then none else some n

/-- The message of the error thrown on a non-ok response or missing body,
with the numeric status interpolated. -/
def downloadErrMsg (status : Nat) : String :=
  "Unable to download tiles (" ++ toString status ++ ")"

/-- `Math.ceil(a / b)` on naturals. -/
def ceilDiv (a b : Nat) : Nat := (a + b - 1) / b

/-- Per-chunk increment of `storedChunks`:
`Math.max(1, Math.ceil(value.length / CHUNK_SIZE))`. -/
def chunkIncrement (len : Nat) : Nat := max 1 (ceilDiv len CHUNK_SIZE)

/-- The value of `receivedBytes` after the read loop has consumed `chunks`. -/
def receivedBytesOf (chunks : List Blob) : Nat :=
  chunks.foldl (fun acc c => acc + c.length) 0

/-- The value of `storedChunks` after the read loop has consumed `chunks`. -/
def storedChunksOf (chunks : List Blob) : Nat :=
  chunks.foldl (fun acc c => acc + chunkIncrement c.length) 0

/-- The status written by `setStatus` just before the `try` block: phase
downloading, all counters zeroed, `totalBytes` and `error` cleared. -/
def downloadStartStatus : OfflineStatus :=
  { phase := .downloading, storedChunks := 0, totalChunks := 0, bytesStored := 0,
    totalBytes := none, error := none }

/-- The status visible after the read loop has consumed `chunks`: the last
`setStatus` of the loop body, or the pre-`try` status when no chunk arrived.
`totalChunks` is `estimatedChunks || storedChunks`. -/
def loopStatus (estimatedChunks : Nat) (totalBytes : Option Nat)
    (chunks : List Blob) : OfflineStatus :=
  if chunks.isEmpty then downloadStartStatus
  else
    { phase := .downloading,
      storedChunks := storedChunksOf chunks,
      totalChunks := if estimatedChunks ≠ 0 then estimatedChunks
                     else storedChunksOf chunks,
      bytesStored := receivedBytesOf chunks,
      totalBytes := totalBytes,
      error := none }

/-- The `catch` block of `startCaching`: an `AbortError` flips the phase to
paused (spreading the previous status, so the error field is untouched);
any other error flips the phase to error and stores the message. -/
def applyCatch (st : HookState) (errName msg : String) : HookState :=
  if errName = "AbortError" then
    { st with status := { st.status with phase := .paused } }
  else
    { st with status := { st.status with phase := .error, error := some msg } }

/-- One run of `startCaching`, as a function of the URL available when it was
invoked, the outcome of the awaited network I/O, the hook state at invocation
and the persisted slot. Returns the final hook state and slot.

Without a URL it only writes the error status (spreading the previous
status). Otherwise it resets the status, performs the fetch: a thrown fetch
goes to the catch; a response failing `response.ok`/`response.body` raises
`Error` (name "Error") with the status-bearing message; an ok response is
streamed, an interruption going to the catch over the last loop status, and
completion concatenating the chunks, persisting the blob with its source URL
and writing the ready status with
`finalChunks = estimatedChunks || storedChunks || 1`. -/
def startCaching (pmtilesUrl : Option String) (outcome : FetchOutcome)
    (st : HookState) (store : Option StoredValue) :
    HookState × Option StoredValue :=
  match pmtilesUrl with
  | none =>
      ({ st with status := { st.status with
           phase := .error,
           error := some "No PMTiles source available" } },
       store)
  | some url =>
      let st0 : HookState :=
        { st with cachedSourceUrl := some url, status := downloadStartStatus }
      match outcome with
      | .thrown errName msg => (applyCatch st0 errName msg, store)
      | .resp status hasBody contentLength body =>
          if responseOk status && hasBody then
            let totalBytes := parseContentLength contentLength
            let estimatedChunks :=
              match totalBytes with
              | some t => ceilDiv t CHUNK_SIZE
              | none => 0
            match body with
            | .interrupted chunks errName msg =>
                (applyCatch
                   { st0 with status := loopStatus estimatedChunks totalBytes chunks }
                   errName msg,
                 store)
            | .complete chunks =>
                let receivedBytes := receivedBytesOf chunks
                let blob : Blob := chunks.flatten
                let finalChunks :=
                  if estimatedChunks ≠ 0 then estimatedChunks
                  else if storedChunksOf chunks ≠ 0 then storedChunksOf chunks
                  else 1
                ({ offlineBlob := some blob,
                   hasCache := true,
                   cachedSourceUrl := some url,
                   status := { phase := .ready,
                               storedChunks := finalChunks,
                               totalChunks := finalChunks,
                               bytesStored := if receivedBytes ≠ 0 then receivedBytes
                                              else blob.length,
                               totalBytes := (match totalBytes with
                                              | some t => some t
                                              | none => some blob.length),
                               error := none } },
                 savePMTilesBlob blob (some url))
          else
            (applyCatch st0 "Error" (downloadErrMsg status), store)

/-- Classifies a run outcome as a cancellation: the fetch or the body stream
rejected with an `AbortError`. A body interruption is only reachable when the
response passed the `response.ok`/`response.body` guard. -/
def abortedOutcome : FetchOutcome → Bool
  | .thrown errName _ => errName == "AbortError"
  | .resp status hasBody _ (.interrupted _ errName _) =>
      responseOk status && hasBody && (errName == "AbortError")
  | .resp _ _ _ (.complete _) => false

/-- The status the hook settles to after a completed download is cleared:
`clearCache` zeroes everything and resets the phase to idle. -/
def clearedStatus : OfflineStatus :=
  { phase := .idle, storedChunks := 0, totalChunks := 0, bytesStored := 0,
    totalBytes := none, error := none }

/-- `clearCache`: aborts any in-flight controller, deletes the persisted
record and resets every piece of hook state. -/
def clearCache (_st : HookState) (_store : Option StoredValue) :
    HookState × Option StoredValue :=
  ({ offlineBlob := none, cachedSourceUrl := none, hasCache := false,
     status := clearedStatus },
   clearPMTilesBlob)

/-- The `!enabled` branch of the enable/disable effect: it aborts the
controller (`resetController`) and spreads the previous status with phase
ready when a cache exists, idle otherwise. -/
def disableEffect (st : HookState) : HookState :=
  { st with status := { st.status with
      phase := if st.hasCache then .ready else .idle } }

/-- Toggling the feature off while a download is in flight. The effect body
runs synchronously: it aborts the controller and writes the ready/idle
status. The abort makes the in-flight `startCaching`'s awaited promise reject
with an `AbortError` in a later microtask, so its `catch` block then runs on
top of the effect's status, spreading it with phase paused. Neither step
touches the persisted slot. -/
def toggleOffWhileDownloading (st : HookState) (store : Option StoredValue)
    (abortMsg : String) : HookState × Option StoredValue :=
  (applyCatch (disableEffect st) "AbortError" abortMsg, store)

/-! ## String helpers mirroring the JavaScript string methods used -/

/-- Character-list prefix test, the scanning core of JS `startsWith`. -/
def isPrefixList : List Char → List Char → Bool
  | [], _ => true
  | _ :: _, [] => false
  | a :: as, b :: bs => a == b && isPrefixList as bs

/-- Character-list substring test, the scanning core of JS `includes`. -/
def containsSubList (needle : List Char) : List Char → Bool
  | [] => needle.isEmpty
  | c :: rest => isPrefixList needle (c :: rest) || containsSubList needle rest

/-- JS `String.prototype.includes`. -/
def containsSub (s needle : String) : Bool :=
  containsSubList needle.data s.data

/-- JS `String.prototype.startsWith`. -/
def strStartsWith (s p : String) : Bool :=
  isPrefixList p.data s.data

/-- The whitespace recognised when trimming the provenance URL. -/
def isWhitespaceChar (c : Char) : Bool :=
  c == ' ' || c == '\t' || c == '\n' || c == '\r'

/-- JS `String.prototype.trim` (leading and trailing whitespace removed). -/
def strTrim (s : String) : String :=
  ⟨((s.data.dropWhile isWhitespaceChar).reverse.dropWhile isWhitespaceChar).reverse⟩

/-- JS `String.prototype.toLowerCase` (the layer names involved are ASCII). -/
def strToLower (s : String) : String :=
  ⟨s.data.map Char.toLower⟩

/-! ## resolvePMTiles (sord-field-kit lib/pmtiles.ts) -/

/-- `LOCAL_PM_TILES_PATH` from pmtiles.ts. -/
def LOCAL_PM_TILES_PATH : String := "/tiles/basemap.pmtiles"

/-- `REMOTE_PM_TILES_URL` from pmtiles.ts. -/
def REMOTE_PM_TILES_URL : String :=
  "https://pmtiles.io/protomaps(vector)ODbL_firenze.pmtiles"

/-- `BasemapInfo` from pmtiles.ts. -/
structure BasemapInfo where
  sourceUrl : String
  tileUrl : String
  usedLocal : Bool
  usedOfflineCache : Bool
deriving DecidableEq

/-- A `PMTiles` archive instance, identified by `source.getKey()`: the file
name for a `FileSource`, the URL for a network source. -/
structure PMTilesArchive where
  key : String
deriving DecidableEq

/-- The `File` name given to the offline blob in `resolvePMTiles`. -/
def offlineFileName : String := "offline-basemap.pmtiles"

/-- `resolvePMTiles`: picks the archive per the priority policy. The result
of the `HEAD` probe of the bundled local path (`hasLocalPMTiles`) and the set
of keys already registered with the singleton pmtiles `Protocol` are passed
explicitly; the returned list is the registration set after `protocol.add`.

With an offline blob: wrap it as a `File` named `offline-basemap.pmtiles`,
register it, derive the provenance (a blank or absent recorded URL becomes
the synthetic tag `indexeddb://offline-basemap`), and set
`usedLocal = (sourceUrl === LOCAL_PM_TILES_PATH) || sourceUrl.startsWith("indexeddb://")`,
`usedOfflineCache = true`. Without one: use the local path when the probe
succeeded, else the remote demo URL, registering the archive keyed by that
URL, with `usedLocal` the probe result and `usedOfflineCache = false`.
Every branch derives `tileUrl` by prefixing the archive key with
`pmtiles://`. -/
def resolvePMTiles (offlineBlob : Option Blob) (offlineSourceUrl : Option String)
    (localProbeOk : Bool) (registered : List String) :
    PMTilesArchive × BasemapInfo × List String :=
  match offlineBlob with
  | some _ =>
      let pmtiles : PMTilesArchive := { key := offlineFileName }
      let registered2 := pmtiles.key :: registered
      let sourceUrl :=
        match offlineSourceUrl with
        | some u => if 0 < (strTrim u).length then u else "indexeddb://offline-basemap"
        | none => "indexeddb://offline-basemap"
      let usedLocal :=
        (sourceUrl == LOCAL_PM_TILES_PATH) || strStartsWith sourceUrl "indexeddb://"
      (pmtiles,
       { sourceUrl := sourceUrl,
         tileUrl := "pmtiles://" ++ pmtiles.key,
         usedLocal := usedLocal,
         usedOfflineCache := true },
       registered2)
  | none =>
      let sourceUrl := if localProbeOk then LOCAL_PM_TILES_PATH else REMOTE_PM_TILES_URL
      let pmtiles : PMTilesArchive := { key := sourceUrl }
      (pmtiles,
       { sourceUrl := sourceUrl,
         tileUrl := "pmtiles://" ++ pmtiles.key,
         usedLocal := localProbeOk,
         usedOfflineCache := false },
       pmtiles.key :: registered)

/-! ## Map renderer rebinding logic (src/components/MapView.tsx) -/

/-- A MapLibre style layer as built by `installBasemap`: paint and layout are
property-name/value association lists (expression values are rendered as
opaque string tokens; no claim depends on their structure). -/
structure StyleLayer where
  id : String
  type : String
  source : String
  sourceLayer : String
  paint : List (String × String)
  layout : List (String × String)
  minzoom : Option Nat := none
  maxzoom : Option Nat := none
deriving DecidableEq

/-- The map style state mutated by the rebinding routine: the ordered list of
style layers and the `pm` vector source (its url) when present. -/
structure MapState where
  layers : List StyleLayer
  pmSource : Option String
deriving DecidableEq

/-- The renderer's refs: `layerIdsRef` (role key to generated layer id) and
`sourceUrlRef` (the currently bound source). -/
structure RendererState where
  layerIdsRef : List (String × String)
  sourceUrlRef : Option String
deriving DecidableEq

/-- A theme from `THEMES`. -/
structure Theme where
  background : String
  land : String
  water : String
  roads : String
  building : String
  boundary : String
  text : String
  textHalo : String

/-- `THEMES.dark`. -/
def darkTheme : Theme :=
  { background := "#030712", land := "#1b2a38", water := "#0f4470",
    roads := "#f3f6fb", building := "#c87a35", boundary := "#6c8195",
    text := "#f5f9ff", textHalo := "#0b101a" }

/-- A `LayerDescriptor` from `LAYER_DESCRIPTORS`: a semantic role key, its
keyword substrings, the layer type and the theme-dependent paint/layout
property builders. -/
structure LayerDescriptor where
  key : String
  /-- The `matches` array of the descriptor (`matches` is a reserved word in
  Lean, hence the field name). -/
  matchList : List String
  type : String
  paint : Theme → List (String × String)
  layout : Option (Theme → List (String × String)) := none
  minzoom : Option Nat := none
  maxzoom : Option Nat := none

/-- The `land` descriptor. -/
def landDescriptor : LayerDescriptor :=
  { key := "land", matchList := ["land", "earth", "park", "landuse", "landcover"],
    type := "fill",
    paint := fun t => [("fill-color", t.land), ("fill-opacity", "0.65")] }

/-- The `water` descriptor. -/
def waterDescriptor : LayerDescriptor :=
  { key := "water", matchList := ["water"], type := "fill",
    paint := fun t => [("fill-color", t.water), ("fill-opacity", "0.75")] }

/-- The `roads` descriptor (the `line-width` interpolate expression is an
opaque token). -/
def roadsDescriptor : LayerDescriptor :=
  { key := "roads", matchList := ["road", "transport", "transportation"],
    type := "line",
    paint := fun t => [("line-color", t.roads),
                       ("line-width", "interpolate linear zoom 5 0.4 10 1.6 13 3.2 16 5"),
                       ("line-opacity", "0.85")] }

/-- The `buildings` descriptor. -/
def buildingsDescriptor : LayerDescriptor :=
  { key := "buildings", matchList := ["building"], type := "fill",
    paint := fun t => [("fill-color", t.building), ("fill-opacity", "0.6")],
    minzoom := some 13 }

/-- The `boundaries` descriptor. -/
def boundariesDescriptor : LayerDescriptor :=
  { key := "boundaries", matchList := ["boundary", "admin"], type := "line",
    paint := fun t => [("line-color", t.boundary), ("line-width", "1"),
                       ("line-dasharray", "4 3"), ("line-opacity", "0.5")],
    minzoom := some 3 }

/-- The `labels` descriptor (expression values are opaque tokens). -/
def labelsDescriptor : LayerDescriptor :=
  { key := "labels", matchList := ["label", "place"], type := "symbol",
    paint := fun t => [("text-color", t.text), ("text-halo-color", t.textHalo),
                       ("text-halo-width", "1.2")],
    layout := some (fun _ => [("text-field", "coalesce name name_en ref"),
                              ("text-size", "interpolate linear zoom 5 11 12 16"),
                              ("text-letter-spacing", "0.02"),
                              ("symbol-placement", "point")]),
    minzoom := some 4 }

/-- `LAYER_DESCRIPTORS`, in source order. -/
def LAYER_DESCRIPTORS : List LayerDescriptor :=
  [landDescriptor, waterDescriptor, roadsDescriptor, buildingsDescriptor,
   boundariesDescriptor, labelsDescriptor]

/-- `map.getLayer(id)`. -/
def getLayer (m : MapState) (layerId : String) : Option StyleLayer :=
  m.layers.find? (fun l => l.id == layerId)

/-- `map.removeLayer(id)`. -/
def removeLayer (m : MapState) (layerId : String) : MapState :=
  { m with layers := m.layers.filter (fun l => l.id != layerId) }

/-- `map.addLayer(layer)` (appended on top; insertion position is not
relevant to the claims). -/
def addLayer (m : MapState) (l : StyleLayer) : MapState :=
  { m with layers := m.layers ++ [l] }

/-- Assignment of a property in a JS-object-as-association-list: update in
place when the key exists, append otherwise. -/
def setProp (props : List (String × String)) (p v : String) :
    List (String × String) :=
  if props.any (fun q => q.1 == p) then
    props.map (fun q => if q.1 == p then (p, v) else q)
  else props ++ [(p, v)]

/-- `map.setPaintProperty(id, prop, value)`. -/
def setPaintProperty (m : MapState) (layerId p v : String) : MapState :=
  { m with layers := m.layers.map (fun l =>
      if l.id == layerId then { l with paint := setProp l.paint p v } else l) }

/-- `map.setLayoutProperty(id, prop, value)`. -/
def setLayoutProperty (m : MapState) (layerId p v : String) : MapState :=
  { m with layers := m.layers.map (fun l =>
      if l.id == layerId then { l with layout := setProp l.layout p v } else l) }

/-- Read `layerIdsRef.current[key]`. -/
def lookupAssoc (assoc : List (String × String)) (k : String) : Option String :=
  (assoc.find? (fun kv => kv.1 == k)).map (fun kv => kv.2)

/-- Write `layerIdsRef.current[key] = v`. -/
def setAssoc (assoc : List (String × String)) (k v : String) :
    List (String × String) :=
  if assoc.any (fun kv => kv.1 == k) then
    assoc.map (fun kv => if kv.1 == k then (k, v) else kv)
  else assoc ++ [(k, v)]

/-- `enabledLayersRef.current[key] ?? true`. -/
def lookupEnabled (enabledLayers : List (String × Bool)) (k : String) : Bool :=
  ((enabledLayers.find? (fun kv => kv.1 == k)).map (fun kv => kv.2)).getD true

/-- The per-descriptor body of `applyTheme`: when the tracked layer is on the
map, re-set each paint property and each layout property except
`visibility`. -/
def applyThemeToLayer (m : MapState) (d : LayerDescriptor) (theme : Theme)
    (layerId : String) : MapState :=
  if (getLayer m layerId).isSome then
    let m1 := (d.paint theme).foldl
      (fun acc pv => setPaintProperty acc layerId pv.1 pv.2) m
    match d.layout with
    | some lf =>
        ((lf theme).filter (fun pv => pv.1 != "visibility")).foldl
          (fun acc pv => setLayoutProperty acc layerId pv.1 pv.2) m1
    | none => m1
  else m

/-- `applyTheme`: re-apply the background colour and every tracked layer's
theme-dependent paint/layout properties. -/
def applyTheme (m : MapState) (rs : RendererState) (theme : Theme) : MapState :=
  let m0 := if (getLayer m "background").isSome then
              setPaintProperty m "background" "background-color" theme.background
            else m
  LAYER_DESCRIPTORS.foldl (fun acc d =>
    match lookupAssoc rs.layerIdsRef d.key with
    | some layerId => applyThemeToLayer acc d theme layerId
    | none => acc) m0

/-- `removeLayers`: drop every tracked layer still on the map, clear the
tracking ref, and remove the `pm` source when present. -/
def removeLayers (m : MapState) (rs : RendererState) : MapState × RendererState :=
  let m1 := rs.layerIdsRef.foldl (fun acc kv =>
    if (getLayer acc kv.2).isSome then removeLayer acc kv.2 else acc) m
  let m2 := if m1.pmSource.isSome then { m1 with pmSource := none } else m1
  (m2, { rs with layerIdsRef := [] })

/-- The metadata match of `installBasemap`: the first embedded vector layer
whose id, lowercased, contains one of the role's keyword substrings. -/
def roleMatch (vectorLayers : List String) (d : LayerDescriptor) : Option String :=
  vectorLayers.find? (fun candidate =>
    d.matchList.any (fun needle => containsSub (strToLower candidate) needle))

/-- The style layer built for a matched role: id `pm-` plus the role key,
bound to the matched source layer, layout carrying the current visibility
toggle. -/
def buildLayer (d : LayerDescriptor) (sourceLayer : String) (theme : Theme)
    (enabledLayers : List (String × Bool)) : StyleLayer :=
  let layout0 := match d.layout with
    | some lf => lf theme
    | none => []
  { id := "pm-" ++ d.key, type := d.type, source := "pm",
    sourceLayer := sourceLayer,
    paint := d.paint theme,
    layout := setProp layout0 "visibility"
      (if lookupEnabled enabledLayers d.key then "visible" else "none"),
    minzoom := d.minzoom, maxzoom := d.maxzoom }

/-- One iteration of the `LAYER_DESCRIPTORS.forEach` in `installBasemap`:
skip a role with no metadata match; otherwise build its layer, drop a stale
layer of the same id, add it, and record the role-to-id mapping. -/
def installStep (vectorLayers : List String) (theme : Theme)
    (enabledLayers : List (String × Bool)) (acc : MapState × RendererState)
    (d : LayerDescriptor) : MapState × RendererState :=
  match roleMatch vectorLayers d with
  | none => acc
  | some sourceLayer =>
      let layer := buildLayer d sourceLayer theme enabledLayers
      let m1 := if (getLayer acc.1 layer.id).isSome then removeLayer acc.1 layer.id
                else acc.1
      (addLayer m1 layer,
       { acc.2 with layerIdsRef := setAssoc acc.2.layerIdsRef d.key layer.id })

/-- `installBasemap` from src/components/MapView.tsx. The archive's embedded
`vector_layers` metadata (empty when unavailable), the current theme and the
visibility toggles are passed explicitly. An empty `src` is a no-op; a source
identical to the currently bound one (with the `pm` source still present)
only re-applies the theme; otherwise the routine records the new source,
removes the tracked layers and the old source, adds the new vector source,
adds one style layer per matched role and finally applies the theme. -/
def installBasemap (m : MapState) (rs : RendererState) (src : String)
    (vectorLayers : List String) (theme : Theme)
    (enabledLayers : List (String × Bool)) : MapState × RendererState :=
  if src = "" then (m, rs)
  else if rs.sourceUrlRef = some src ∧ m.pmSource.isSome then
    (applyTheme m rs theme, rs)
  else
    let rs1 : RendererState := { rs with sourceUrlRef := some src }
    let mrs := removeLayers m rs1
    let m2 : MapState := { mrs.1 with pmSource := some ("pmtiles://" ++ src) }
    let mrs3 := LAYER_DESCRIPTORS.foldl (installStep vectorLayers theme enabledLayers)
      (m2, mrs.2)
    (applyTheme mrs3.1 mrs3.2 theme, mrs3.2)

/-- The list of style layers produced by the matching loop of a rebuild, in
descriptor order: one layer per role with a metadata match. Derived
characterization used by the theorems about `installBasemap`. -/
def builtLayersFor (vectorLayers : List String) (theme : Theme)
    (enabledLayers : List (String × Bool)) : List StyleLayer :=
  LAYER_DESCRIPTORS.filterMap (fun d =>
    (roleMatch vectorLayers d).map (fun sl => buildLayer d sl theme enabledLayers))

/-- Number of layers with the given id on a map's layer list. -/
def countId (layers : List StyleLayer) (i : String) : Nat :=
  layers.countP (fun l => l.id == i)

/-- The identity-relevant projection of a style layer: its id and the
embedded metadata layer it is bound to. Theme application may change paint
and layout but never this projection. -/
def layerSig (l : StyleLayer) : String × String := (l.id, l.sourceLayer)

/-! ## Helper lemmas -/

theorem foldl_add_eq {α : Type} (f : α → Nat) :
    ∀ (l : List α) (n : Nat),
      List.foldl (fun a c => a + f c) n l = n + (l.map f).sum := by
  intro l
  induction l with
  | nil => intro n; simp
  | cons c cs ih =>
      intro n
      simp [List.foldl, ih (n + f c)]
      omega

theorem receivedBytesOf_eq_sum (chunks : List Blob) :
    receivedBytesOf chunks = (chunks.map List.length).sum := by
  simpa using foldl_add_eq List.length chunks 0

theorem isPrefixList_self_append (l r : List Char) :
    isPrefixList l (l ++ r) = true := by
  induction l with
  | nil => simp [isPrefixList]
  | cons a as ih => simp [isPrefixList, ih]

theorem containsSubList_of_prefixList (n s : List Char)
    (h : isPrefixList n s = true) : containsSubList n s = true := by
  cases s with
  | nil =>
      cases n with
      | nil => simp [containsSubList]
      | cons a as => simp [isPrefixList] at h
  | cons c rest => simp [containsSubList, h]

theorem containsSubList_append_left (n : List Char) :
    ∀ (pre s : List Char), containsSubList n s = true →
      containsSubList n (pre ++ s) = true := by
  intro pre
  induction pre with
  | nil => intro s h; simpa using h
  | cons c cs ih =>
      intro s h
      simp only [List.cons_append, containsSubList, List.append_eq]
      rw [ih s h]
      simp

theorem containsSub_middle (a b c : String) :
    containsSub (a ++ b ++ c) b = true := by
  have hdata : (a ++ b ++ c).data = a.data ++ (b.data ++ c.data) := by
    simp [String.data_append]
  unfold containsSub
  rw [hdata]
  exact containsSubList_append_left b.data a.data (b.data ++ c.data)
    (containsSubList_of_prefixList _ _ (isPrefixList_self_append b.data c.data))

theorem ceilDiv_pos (t k : Nat) (hk : 0 < k) (ht : 1 ≤ t) :
    1 ≤ ceilDiv t k := by
  unfold ceilDiv
  rw [Nat.le_div_iff_mul_le hk]
  omega

/-! ## C9: readPMTilesBlob backward compatibility and totality -/

/-- C9: `readPMTilesBlob` is backward compatible and total over malformed
stored values: a bare stored `Blob` is returned as a record with that blob
and an absent `sourceUrl`; a stored record whose `blob` field is a `Blob` is
returned with both fields; every other stored value (absent, falsy, a
non-object, an object without a `blob` key, or a record whose `blob` field
is not a `Blob`) yields `none` — the function is total, so nothing throws. -/
theorem readPMTilesBlob_backward_compatible (b : Blob) (url : Option String) :
    readPMTilesBlob (some (.blobVal b)) = some { blob := b, sourceUrl := none } ∧
    readPMTilesBlob (some (.recordWithBlob b url)) = some { blob := b, sourceUrl := url } ∧
    readPMTilesBlob none = none ∧
    readPMTilesBlob (some (.recordNonBlob url)) = none ∧
    readPMTilesBlob (some .objNoBlobKey) = none ∧
    readPMTilesBlob (some .otherTruthy) = none ∧
    readPMTilesBlob (some .falsy) = none := by
  simp [readPMTilesBlob]

/-! ## C10: startCaching without a URL -/

/-- C10: invoked while no tile URL is available, `startCaching` performs no
network request (its result does not depend on any I/O outcome) and changes
neither the cached blob, `hasCache`, `cachedSourceUrl`, nor the persisted
slot; it only flips the phase to error with the message
"No PMTiles source available", preserving every other status field. -/
theorem startCaching_no_url_only_status (outcome1 outcome2 : FetchOutcome)
    (st : HookState) (store : Option StoredValue) :
    startCaching none outcome1 st store = startCaching none outcome2 st store ∧
    (startCaching none outcome1 st store).2 = store ∧
    (startCaching none outcome1 st store).1.offlineBlob = st.offlineBlob ∧
    (startCaching none outcome1 st store).1.hasCache = st.hasCache ∧
    (startCaching none outcome1 st store).1.cachedSourceUrl = st.cachedSourceUrl ∧
    (startCaching none outcome1 st store).1.status.phase = .error ∧
    (startCaching none outcome1 st store).1.status.error
      = some "No PMTiles source available" ∧
    (startCaching none outcome1 st store).1.status.storedChunks = st.status.storedChunks ∧
    (startCaching none outcome1 st store).1.status.totalChunks = st.status.totalChunks ∧
    (startCaching none outcome1 st store).1.status.bytesStored = st.status.bytesStored ∧
    (startCaching none outcome1 st store).1.status.totalBytes = st.status.totalBytes := by
  simp [startCaching]

/-! ## C8: clearCache idempotence -/

/-- C8: after one `clearCache` — and equally after two in a row — there is no
cache flag, the phase is idle, all counters are zero, the error field is
absent and no record is persisted (`readPMTilesBlob` of the slot is `none`);
the second invocation changes nothing. -/
theorem clearCache_idempotent (st : HookState) (store : Option StoredValue) :
    (clearCache st store).1.hasCache = false ∧
    (clearCache st store).1.offlineBlob = none ∧
    (clearCache st store).1.status.phase = .idle ∧
    (clearCache st store).1.status.storedChunks = 0 ∧
    (clearCache st store).1.status.totalChunks = 0 ∧
    (clearCache st store).1.status.bytesStored = 0 ∧
    (clearCache st store).1.status.error = none ∧
    (clearCache st store).2 = none ∧
    readPMTilesBlob (clearCache st store).2 = none ∧
    clearCache (clearCache st store).1 (clearCache st store).2 = clearCache st store := by
  simp [clearCache, clearedStatus, clearPMTilesBlob, readPMTilesBlob]

theorem loopStatus_error (estimatedChunks : Nat) (totalBytes : Option Nat)
    (chunks : List Blob) : (loopStatus estimatedChunks totalBytes chunks).error = none := by
  unfold loopStatus
  split <;> rfl

/-! ## C1: completed download with a known total -/

/-- C1 counterexample: an ok response that carries `content-length: 0` and
whose chunks sum to 0 bytes ends with `storedChunks = totalChunks = 1`, not
`ceil(0/65536) = 0` as the claim requires — the code coerces a zero
content-length to "unknown" and then falls back to
`estimatedChunks || storedChunks || 1 = 1`. -/
theorem startCaching_zeroTotal_cex :
    responseOk 200 = true ∧
    (([] : List Blob).map List.length).sum = 0 ∧
    (startCaching (some "https://tiles.example/x.pmtiles")
        (.resp 200 true (some 0) (.complete [])) initialHookState none).1.status.phase = .ready ∧
    (startCaching (some "https://tiles.example/x.pmtiles")
        (.resp 200 true (some 0) (.complete [])) initialHookState none).1.status.bytesStored = 0 ∧
    (startCaching (some "https://tiles.example/x.pmtiles")
        (.resp 200 true (some 0) (.complete [])) initialHookState none).1.status.storedChunks = 1 ∧
    (startCaching (some "https://tiles.example/x.pmtiles")
        (.resp 200 true (some 0) (.complete [])) initialHookState none).1.status.totalChunks = 1 ∧
    ceilDiv 0 CHUNK_SIZE = 0 ∧
    ¬ ((startCaching (some "https://tiles.example/x.pmtiles")
        (.resp 200 true (some 0) (.complete [])) initialHookState none).1.status.storedChunks
          = ceilDiv 0 CHUNK_SIZE) := by
  decide

/-- C1 (amended: totals of at least one byte): for every download run whose
response is ok with a content-length `T ≥ 1` and whose received chunks sum to
exactly `T` bytes, the run ends with phase ready, `bytesStored = T` and
`storedChunks = totalChunks = ceil(T/CHUNK_SIZE)` — independently of how the
transport split the `T` bytes into chunks, even though each arriving chunk
increments `storedChunks` by `max(1, ceil(chunkLength/CHUNK_SIZE))` during
the transfer. (At `T = 0` the code reports both counters as 1; see the
counterexample.) -/
theorem startCaching_knownTotal_ready (url : String) (T status : Nat)
    (chunks : List Blob) (st : HookState) (store : Option StoredValue)
    (hT : 1 ≤ T) (hok : responseOk status = true)
    (hsum : (chunks.map List.length).sum = T) :
    (startCaching (some url) (.resp status true (some T) (.complete chunks))
        st store).1.status.phase = .ready ∧
    (startCaching (some url) (.resp status true (some T) (.complete chunks))
        st store).1.status.bytesStored = T ∧
    (startCaching (some url) (.resp status true (some T) (.complete chunks))
        st store).1.status.storedChunks = ceilDiv T CHUNK_SIZE ∧
    (startCaching (some url) (.resp status true (some T) (.complete chunks))
        st store).1.status.totalChunks = ceilDiv T CHUNK_SIZE := by
  have hT0 : ¬ (T = 0) := by omega
  have hrb : receivedBytesOf chunks = T := by
    rw [receivedBytesOf_eq_sum, hsum]
  have hest : ¬ (ceilDiv T CHUNK_SIZE = 0) := by
    have h1 := ceilDiv_pos T CHUNK_SIZE (by norm_num [CHUNK_SIZE]) hT
    omega
  simp [startCaching, hok, parseContentLength, hT0, hest, hrb]

/-- C1 witness: a concrete completed run with total 3 split as 1 + 2 bytes. -/
theorem startCaching_knownTotal_ready_witness :
    1 ≤ 3 ∧ responseOk 200 = true ∧
    (([[1], [2, 3]] : List Blob).map List.length).sum = 3 ∧
    ((startCaching (some "https://tiles.example/x.pmtiles")
        (.resp 200 true (some 3) (.complete [[1], [2, 3]]))
        initialHookState none).1.status.phase = .ready ∧
     (startCaching (some "https://tiles.example/x.pmtiles")
        (.resp 200 true (some 3) (.complete [[1], [2, 3]]))
        initialHookState none).1.status.bytesStored = 3 ∧
     (startCaching (some "https://tiles.example/x.pmtiles")
        (.resp 200 true (some 3) (.complete [[1], [2, 3]]))
        initialHookState none).1.status.storedChunks = ceilDiv 3 CHUNK_SIZE ∧
     (startCaching (some "https://tiles.example/x.pmtiles")
        (.resp 200 true (some 3) (.complete [[1], [2, 3]]))
        initialHookState none).1.status.totalChunks = ceilDiv 3 CHUNK_SIZE) :=
  ⟨by decide, by decide, by decide,
   startCaching_knownTotal_ready "https://tiles.example/x.pmtiles" 3 200
     [[1], [2, 3]] initialHookState none (by decide) (by decide) (by decide)⟩

/-! ## C2: aborts are pauses, never errors -/

/-- C2: for every in-flight download run, a cancellation delivered as an
`AbortError` (explicit pause, a new start pre-empting it, toggling the
feature off, or teardown all abort the one active controller) ends the run
with phase paused, does not write the error field and does not touch the
persisted slot; and whenever the run ends with the error field populated,
the outcome was not an abort — only a non-abort failure populates it. -/
theorem startCaching_abort_paused (url : String) (outcome : FetchOutcome)
    (st : HookState) (store : Option StoredValue) :
    (abortedOutcome outcome = true →
      (startCaching (some url) outcome st store).1.status.phase = .paused ∧
      (startCaching (some url) outcome st store).1.status.error = none ∧
      (startCaching (some url) outcome st store).2 = store) ∧
    ((startCaching (some url) outcome st store).1.status.error ≠ none →
      abortedOutcome outcome = false) := by
  cases outcome with
  | thrown errName msg =>
      by_cases h : errName = "AbortError" <;>
        simp [startCaching, applyCatch, abortedOutcome, h, downloadStartStatus]
  | resp status hasBody contentLength body =>
      cases body with
      | complete chunks =>
          by_cases hc : (responseOk status && hasBody) = true
          · simp [startCaching, abortedOutcome, hc]
          · simp [startCaching, applyCatch, abortedOutcome, hc, downloadStartStatus]
      | interrupted chunks errName msg =>
          by_cases hc : (responseOk status && hasBody) = true
          · by_cases h : errName = "AbortError" <;>
              simp [startCaching, applyCatch, abortedOutcome, hc, h, loopStatus_error]
          · simp [startCaching, applyCatch, abortedOutcome, hc, downloadStartStatus]

/-- C2 witness: a concrete aborted fetch ends paused with no error and an
untouched slot. -/
theorem startCaching_abort_paused_witness :
    abortedOutcome (.thrown "AbortError" "The operation was aborted.") = true ∧
    ((startCaching (some "https://tiles.example/w.pmtiles")
        (.thrown "AbortError" "The operation was aborted.")
        initialHookState none).1.status.phase = .paused ∧
     (startCaching (some "https://tiles.example/w.pmtiles")
        (.thrown "AbortError" "The operation was aborted.")
        initialHookState none).1.status.error = none ∧
     (startCaching (some "https://tiles.example/w.pmtiles")
        (.thrown "AbortError" "The operation was aborted.")
        initialHookState none).2 = none) :=
  ⟨by decide,
   (startCaching_abort_paused "https://tiles.example/w.pmtiles"
      (.thrown "AbortError" "The operation was aborted.")
      initialHookState none).1 (by decide)⟩

/-! ## C3: non-2xx responses -/

/-- C3: when the fetch resolves with a non-2xx HTTP status, the run ends with
phase error and an error message containing the numeric status code, and
`hasCache`, the in-memory blob and the persisted slot are all unchanged from
before the attempt — no partial record is persisted. -/
theorem startCaching_http_error_preserves_cache (url : String) (status : Nat)
    (hasBody : Bool) (contentLength : Option Nat) (body : BodyOutcome)
    (st : HookState) (store : Option StoredValue)
    (hstatus : responseOk status = false) :
    (startCaching (some url) (.resp status hasBody contentLength body)
        st store).1.status.phase = .error ∧
    (startCaching (some url) (.resp status hasBody contentLength body)
        st store).1.status.error = some (downloadErrMsg status) ∧
    containsSub (downloadErrMsg status) (toString status) = true ∧
    (startCaching (some url) (.resp status hasBody contentLength body)
        st store).1.hasCache = st.hasCache ∧
    (startCaching (some url) (.resp status hasBody contentLength body)
        st store).1.offlineBlob = st.offlineBlob ∧
    (startCaching (some url) (.resp status hasBody contentLength body)
        st store).2 = store := by
  have hsub : containsSub (downloadErrMsg status) (toString status) = true := by
    unfold downloadErrMsg
    exact containsSub_middle "Unable to download tiles (" (toString status) ")"
  have hcond : (responseOk status && hasBody) = false := by
    simp [hstatus]
  simp [startCaching, hcond, applyCatch, hsub, downloadStartStatus]

/-- C3 witness: a concrete 404 attempt over an existing cache slot. -/
theorem startCaching_http_error_preserves_cache_witness :
    responseOk 404 = false ∧
    ((startCaching (some "https://tiles.example/missing.pmtiles")
        (.resp 404 true none (.complete []))
        { offlineBlob := some [9], cachedSourceUrl := some "https://old.example/a.pmtiles",
          hasCache := true,
          status := { phase := .ready, storedChunks := 1, totalChunks := 1,
                      bytesStored := 1, totalBytes := some 1, error := none } }
        (savePMTilesBlob [9] (some "https://old.example/a.pmtiles"))).1.status.phase = .error ∧
     (startCaching (some "https://tiles.example/missing.pmtiles")
        (.resp 404 true none (.complete []))
        { offlineBlob := some [9], cachedSourceUrl := some "https://old.example/a.pmtiles",
          hasCache := true,
          status := { phase := .ready, storedChunks := 1, totalChunks := 1,
                      bytesStored := 1, totalBytes := some 1, error := none } }
        (savePMTilesBlob [9] (some "https://old.example/a.pmtiles"))).1.status.error
       = some (downloadErrMsg 404) ∧
     containsSub (downloadErrMsg 404) (toString 404) = true ∧
     (startCaching (some "https://tiles.example/missing.pmtiles")
        (.resp 404 true none (.complete []))
        { offlineBlob := some [9], cachedSourceUrl := some "https://old.example/a.pmtiles",
          hasCache := true,
          status := { phase := .ready, storedChunks := 1, totalChunks := 1,
                      bytesStored := 1, totalBytes := some 1, error := none } }
        (savePMTilesBlob [9] (some "https://old.example/a.pmtiles"))).1.hasCache = true ∧
     (startCaching (some "https://tiles.example/missing.pmtiles")
        (.resp 404 true none (.complete []))
        { offlineBlob := some [9], cachedSourceUrl := some "https://old.example/a.pmtiles",
          hasCache := true,
          status := { phase := .ready, storedChunks := 1, totalChunks := 1,
                      bytesStored := 1, totalBytes := some 1, error := none } }
        (savePMTilesBlob [9] (some "https://old.example/a.pmtiles"))).1.offlineBlob = some [9] ∧
     (startCaching (some "https://tiles.example/missing.pmtiles")
        (.resp 404 true none (.complete []))
        { offlineBlob := some [9], cachedSourceUrl := some "https://old.example/a.pmtiles",
          hasCache := true,
          status := { phase := .ready, storedChunks := 1, totalChunks := 1,
                      bytesStored := 1, totalBytes := some 1, error := none } }
        (savePMTilesBlob [9] (some "https://old.example/a.pmtiles"))).2
       = savePMTilesBlob [9] (some "https://old.example/a.pmtiles")) := by
  refine ⟨by decide, ?_⟩
  have h := startCaching_http_error_preserves_cache
    "https://tiles.example/missing.pmtiles" 404 true none (.complete [])
    { offlineBlob := some [9], cachedSourceUrl := some "https://old.example/a.pmtiles",
      hasCache := true,
      status := { phase := .ready, storedChunks := 1, totalChunks := 1,
                  bytesStored := 1, totalBytes := some 1, error := none } }
    (savePMTilesBlob [9] (some "https://old.example/a.pmtiles")) (by decide)
  exact ⟨h.1, h.2.1, h.2.2.1, h.2.2.2.1, h.2.2.2.2.1, h.2.2.2.2.2⟩

/-! ## C4: toggling the feature off while downloading -/

/-- C4 counterexample: toggling the feature off mid-download with a prior
cache present does not leave the status in phase ready — the disable effect
writes ready, but the aborted run's catch then writes paused on top, so the
settled phase is paused. -/
theorem toggleOff_downloading_cex :
    (toggleOffWhileDownloading
        { offlineBlob := some [0], cachedSourceUrl := some "https://tiles.example/a.pmtiles",
          hasCache := true,
          status := { phase := .downloading, storedChunks := 2, totalChunks := 4,
                      bytesStored := 131072, totalBytes := some 262144, error := none } }
        (savePMTilesBlob [0] (some "https://tiles.example/a.pmtiles"))
        "signal is aborted without reason").1.status.phase = .paused ∧
    ¬ ((toggleOffWhileDownloading
        { offlineBlob := some [0], cachedSourceUrl := some "https://tiles.example/a.pmtiles",
          hasCache := true,
          status := { phase := .downloading, storedChunks := 2, totalChunks := 4,
                      bytesStored := 131072, totalBytes := some 262144, error := none } }
        (savePMTilesBlob [0] (some "https://tiles.example/a.pmtiles"))
        "signal is aborted without reason").1.status.phase = .ready) := by
  decide

/-- C4 (amended): toggling the offline feature off while a download is in
flight aborts the in-flight request; the disable effect momentarily sets the
phase to ready when a prior cache exists and idle otherwise, but the aborted
run's `AbortError` handler then settles the phase to paused; in neither case
is the persisted cache record deleted or the in-memory blob cleared. -/
theorem toggleOff_downloading_settles_paused (st : HookState)
    (store : Option StoredValue) (msg : String)
    (hphase : st.status.phase = .downloading) :
    (disableEffect st).status.phase = (if st.hasCache then .ready else .idle) ∧
    (toggleOffWhileDownloading st store msg).1.status.phase = .paused ∧
    (toggleOffWhileDownloading st store msg).1.offlineBlob = st.offlineBlob ∧
    (toggleOffWhileDownloading st store msg).1.hasCache = st.hasCache ∧
    (toggleOffWhileDownloading st store msg).1.cachedSourceUrl = st.cachedSourceUrl ∧
    (toggleOffWhileDownloading st store msg).2 = store := by
  refine ⟨?_, ?_, ?_, ?_, ?_, ?_⟩ <;>
    simp [toggleOffWhileDownloading, disableEffect, applyCatch]

/-- C4 witness: a concrete in-flight state with no prior cache settles to
paused after the toggle-off, leaving blob and slot untouched. -/
theorem toggleOff_downloading_settles_paused_witness :
    ({ offlineBlob := none, cachedSourceUrl := some "https://tiles.example/a.pmtiles",
       hasCache := false,
       status := { phase := .downloading, storedChunks := 1, totalChunks := 4,
                   bytesStored := 65536, totalBytes := some 262144,
                   error := none } } : HookState).status.phase = .downloading ∧
    ((disableEffect
        { offlineBlob := none, cachedSourceUrl := some "https://tiles.example/a.pmtiles",
          hasCache := false,
          status := { phase := .downloading, storedChunks := 1, totalChunks := 4,
                      bytesStored := 65536, totalBytes := some 262144,
                      error := none } }).status.phase
       = (if ({ offlineBlob := none,
                cachedSourceUrl := some "https://tiles.example/a.pmtiles",
                hasCache := false,
                status := { phase := .downloading, storedChunks := 1, totalChunks := 4,
                            bytesStored := 65536, totalBytes := some 262144,
                            error := none } } : HookState).hasCache
          then OfflinePhase.ready else OfflinePhase.idle) ∧
     (toggleOffWhileDownloading
        { offlineBlob := none, cachedSourceUrl := some "https://tiles.example/a.pmtiles",
          hasCache := false,
          status := { phase := .downloading, storedChunks := 1, totalChunks := 4,
                      bytesStored := 65536, totalBytes := some 262144,
                      error := none } } none "aborted").1.status.phase = .paused ∧
     (toggleOffWhileDownloading
        { offlineBlob := none, cachedSourceUrl := some "https://tiles.example/a.pmtiles",
          hasCache := false,
          status := { phase := .downloading, storedChunks := 1, totalChunks := 4,
                      bytesStored := 65536, totalBytes := some 262144,
                      error := none } } none "aborted").1.offlineBlob = none ∧
     (toggleOffWhileDownloading
        { offlineBlob := none, cachedSourceUrl := some "https://tiles.example/a.pmtiles",
          hasCache := false,
          status := { phase := .downloading, storedChunks := 1, totalChunks := 4,
                      bytesStored := 65536, totalBytes := some 262144,
                      error := none } } none "aborted").1.hasCache = false ∧
     (toggleOffWhileDownloading
        { offlineBlob := none, cachedSourceUrl := some "https://tiles.example/a.pmtiles",
          hasCache := false,
          status := { phase := .downloading, storedChunks := 1, totalChunks := 4,
                      bytesStored := 65536, totalBytes := some 262144,
                      error := none } } none "aborted").1.cachedSourceUrl
       = some "https://tiles.example/a.pmtiles" ∧
     (toggleOffWhileDownloading
        { offlineBlob := none, cachedSourceUrl := some "https://tiles.example/a.pmtiles",
          hasCache := false,
          status := { phase := .downloading, storedChunks := 1, totalChunks := 4,
                      bytesStored := 65536, totalBytes := some 262144,
                      error := none } } none "aborted").2 = none) :=
  ⟨by decide,
   toggleOff_downloading_settles_paused
     { offlineBlob := none, cachedSourceUrl := some "https://tiles.example/a.pmtiles",
       hasCache := false,
       status := { phase := .downloading, storedChunks := 1, totalChunks := 4,
                   bytesStored := 65536, totalBytes := some 262144,
                   error := none } } none "aborted" (by decide)⟩

/-! ## C5: resolver priority policy -/

/-- C5: on every resolution the priority policy holds. With an offline blob,
the blob's archive (the file named `offline-basemap.pmtiles`) is used with
`usedOfflineCache = true` and `usedLocal` true exactly when the recorded
provenance equals the bundled-local path or carries the `indexeddb://`
cache-origin prefix, a blank or absent provenance becoming the synthetic tag
`indexeddb://offline-basemap`. Without one, the bundled local path is used
iff the HEAD probe succeeded (`usedLocal = localProbeOk`,
`usedOfflineCache = false`), else the fixed remote demo URL with both flags
false. In every branch the chosen archive's key is registered with the
pmtiles protocol and `tileUrl` is the `pmtiles://` handle derived from that
archive instance. -/
theorem resolvePMTiles_policy (offlineBlob : Option Blob)
    (offlineSourceUrl : Option String) (localProbeOk : Bool)
    (registered : List String) :
    ((resolvePMTiles offlineBlob offlineSourceUrl localProbeOk registered).1.key
       ∈ (resolvePMTiles offlineBlob offlineSourceUrl localProbeOk registered).2.2) ∧
    ((resolvePMTiles offlineBlob offlineSourceUrl localProbeOk registered).2.1.tileUrl
       = "pmtiles://"
           ++ (resolvePMTiles offlineBlob offlineSourceUrl localProbeOk registered).1.key) ∧
    (∀ b, offlineBlob = some b →
      (resolvePMTiles offlineBlob offlineSourceUrl localProbeOk registered).2.1.usedOfflineCache
          = true ∧
      (resolvePMTiles offlineBlob offlineSourceUrl localProbeOk registered).1.key
          = offlineFileName ∧
      (resolvePMTiles offlineBlob offlineSourceUrl localProbeOk registered).2.1.usedLocal
        = (((resolvePMTiles offlineBlob offlineSourceUrl localProbeOk registered).2.1.sourceUrl
              == LOCAL_PM_TILES_PATH)
           || strStartsWith
                (resolvePMTiles offlineBlob offlineSourceUrl localProbeOk registered).2.1.sourceUrl
                "indexeddb://") ∧
      (∀ u, offlineSourceUrl = some u → 0 < (strTrim u).length →
        (resolvePMTiles offlineBlob offlineSourceUrl localProbeOk registered).2.1.sourceUrl = u) ∧
      ((offlineSourceUrl = none ∨
          ∃ u, offlineSourceUrl = some u ∧ (strTrim u).length = 0) →
        (resolvePMTiles offlineBlob offlineSourceUrl localProbeOk registered).2.1.sourceUrl
          = "indexeddb://offline-basemap")) ∧
    (offlineBlob = none →
      (resolvePMTiles offlineBlob offlineSourceUrl localProbeOk registered).2.1.usedOfflineCache
          = false ∧
      (resolvePMTiles offlineBlob offlineSourceUrl localProbeOk registered).2.1.usedLocal
          = localProbeOk ∧
      (resolvePMTiles offlineBlob offlineSourceUrl localProbeOk registered).2.1.sourceUrl
          = (if localProbeOk then LOCAL_PM_TILES_PATH else REMOTE_PM_TILES_URL) ∧
      (resolvePMTiles offlineBlob offlineSourceUrl localProbeOk registered).1.key
          = (resolvePMTiles offlineBlob offlineSourceUrl localProbeOk registered).2.1.sourceUrl) := by
  cases offlineBlob with
  | none =>
      cases localProbeOk <;> simp [resolvePMTiles]
  | some b =>
      cases offlineSourceUrl with
      | none => simp [resolvePMTiles]
      | some u =>
          by_cases hu : 0 < (strTrim u).length
          · simp [resolvePMTiles, hu]
            omega
          · simp [resolvePMTiles, hu]

/-- C5 witness: a blob with a blank recorded provenance resolves to the
synthetic cache tag, flagged as offline cache, registered, with the derived
handle. -/
theorem resolvePMTiles_policy_witness :
    ((resolvePMTiles (some [7]) (some " ") false []).1.key
       ∈ (resolvePMTiles (some [7]) (some " ") false []).2.2) ∧
    ((resolvePMTiles (some [7]) (some " ") false []).2.1.tileUrl
       = "pmtiles://" ++ (resolvePMTiles (some [7]) (some " ") false []).1.key) ∧
    (resolvePMTiles (some [7]) (some " ") false []).2.1.usedOfflineCache = true ∧
    (resolvePMTiles (some [7]) (some " ") false []).1.key = offlineFileName ∧
    (resolvePMTiles (some [7]) (some " ") false []).2.1.sourceUrl
      = "indexeddb://offline-basemap" :=
  ⟨(resolvePMTiles_policy (some [7]) (some " ") false []).1,
   (resolvePMTiles_policy (some [7]) (some " ") false []).2.1,
   ((resolvePMTiles_policy (some [7]) (some " ") false []).2.2.1 [7] rfl).1,
   ((resolvePMTiles_policy (some [7]) (some " ") false []).2.2.1 [7] rfl).2.1,
   ((resolvePMTiles_policy (some [7]) (some " ") false []).2.2.1 [7] rfl).2.2.2.2
     (Or.inr ⟨" ", rfl, by decide⟩)⟩

/-! ## Theme application preserves layer identity -/

theorem foldl_preserves {α β γ : Type} (g : α → γ) (f : α → β → α)
    (h : ∀ a b, g (f a b) = g a) :
    ∀ (l : List β) (a : α), g (List.foldl f a l) = g a := by
  intro l
  induction l with
  | nil => intro a; rfl
  | cons b bs ih =>
      intro a
      rw [List.foldl_cons, ih, h]

theorem setPaintProperty_sig (m : MapState) (layerId p v : String) :
    ((setPaintProperty m layerId p v).layers.map layerSig,
      (setPaintProperty m layerId p v).pmSource)
      = (m.layers.map layerSig, m.pmSource) := by
  unfold setPaintProperty
  simp only [List.map_map, Prod.mk.injEq]
  refine ⟨List.map_congr_left ?_, trivial⟩
  intro l _
  by_cases h : (l.id == layerId) = true <;> simp [Function.comp, h, layerSig]

theorem setLayoutProperty_sig (m : MapState) (layerId p v : String) :
    ((setLayoutProperty m layerId p v).layers.map layerSig,
      (setLayoutProperty m layerId p v).pmSource)
      = (m.layers.map layerSig, m.pmSource) := by
  unfold setLayoutProperty
  simp only [List.map_map, Prod.mk.injEq]
  refine ⟨List.map_congr_left ?_, trivial⟩
  intro l _
  by_cases h : (l.id == layerId) = true <;> simp [Function.comp, h, layerSig]

theorem applyThemeToLayer_sig (m : MapState) (d : LayerDescriptor)
    (theme : Theme) (layerId : String) :
    ((applyThemeToLayer m d theme layerId).layers.map layerSig,
      (applyThemeToLayer m d theme layerId).pmSource)
      = (m.layers.map layerSig, m.pmSource) := by
  have hp : ∀ (props : List (String × String)) (mm : MapState),
      ((props.foldl (fun acc pv => setPaintProperty acc layerId pv.1 pv.2) mm).layers.map layerSig,
        (props.foldl (fun acc pv => setPaintProperty acc layerId pv.1 pv.2) mm).pmSource)
        = (mm.layers.map layerSig, mm.pmSource) := by
    intro props mm
    exact foldl_preserves (fun x : MapState => (x.layers.map layerSig, x.pmSource))
      (fun acc pv => setPaintProperty acc layerId pv.1 pv.2)
      (fun a b => setPaintProperty_sig a layerId b.1 b.2) props mm
  have hl : ∀ (props : List (String × String)) (mm : MapState),
      ((props.foldl (fun acc pv => setLayoutProperty acc layerId pv.1 pv.2) mm).layers.map layerSig,
        (props.foldl (fun acc pv => setLayoutProperty acc layerId pv.1 pv.2) mm).pmSource)
        = (mm.layers.map layerSig, mm.pmSource) := by
    intro props mm
    exact foldl_preserves (fun x : MapState => (x.layers.map layerSig, x.pmSource))
      (fun acc pv => setLayoutProperty acc layerId pv.1 pv.2)
      (fun a b => setLayoutProperty_sig a layerId b.1 b.2) props mm
  unfold applyThemeToLayer
  split
  · cases hmatch : d.layout with
    | some lf =>
        dsimp only
        rw [hl, hp]
    | none =>
        dsimp only
        rw [hp]
  · rfl

theorem applyTheme_sig (m : MapState) (rs : RendererState) (theme : Theme) :
    ((applyTheme m rs theme).layers.map layerSig,
      (applyTheme m rs theme).pmSource)
      = (m.layers.map layerSig, m.pmSource) := by
  have hfold : ∀ (ds : List LayerDescriptor) (mm : MapState),
      ((ds.foldl (fun acc d =>
          match lookupAssoc rs.layerIdsRef d.key with
          | some layerId => applyThemeToLayer acc d theme layerId
          | none => acc) mm).layers.map layerSig,
        (ds.foldl (fun acc d =>
          match lookupAssoc rs.layerIdsRef d.key with
          | some layerId => applyThemeToLayer acc d theme layerId
          | none => acc) mm).pmSource)
        = (mm.layers.map layerSig, mm.pmSource) := by
    intro ds mm
    refine foldl_preserves (fun x : MapState => (x.layers.map layerSig, x.pmSource))
      _ ?_ ds mm
    intro a d
    cases lookupAssoc rs.layerIdsRef d.key with
    | none => rfl
    | some layerId => exact applyThemeToLayer_sig a d theme layerId
  unfold applyTheme
  dsimp only
  rw [hfold]
  split
  · exact setPaintProperty_sig m "background" "background-color" theme.background
  · rfl

/-! ## C6: rebinding with an identical source is a no-op -/

/-- C6: when `installBasemap` is invoked with a source equal to the currently
bound one (and the vector source is still present), the rebind is a no-op on
the map's layers and sources: the tracked refs are returned unchanged, the
style layer id list and the vector source are identical before and after,
and the whole effect is exactly the re-application of theme/paint
properties (`applyTheme`). -/
theorem installBasemap_same_source_noop (m : MapState) (rs : RendererState)
    (src : String) (vl : List String) (theme : Theme)
    (en : List (String × Bool))
    (hsrc : ¬ (src = "")) (hbound : rs.sourceUrlRef = some src)
    (hpm : m.pmSource.isSome = true) :
    (installBasemap m rs src vl theme en).2 = rs ∧
    (installBasemap m rs src vl theme en).1.layers.map (fun l => l.id)
      = m.layers.map (fun l => l.id) ∧
    (installBasemap m rs src vl theme en).1.pmSource = m.pmSource ∧
    (installBasemap m rs src vl theme en).1 = applyTheme m rs theme := by
  have hred : installBasemap m rs src vl theme en = (applyTheme m rs theme, rs) := by
    unfold installBasemap
    rw [if_neg hsrc, if_pos ⟨hbound, hpm⟩]
  have hsig := applyTheme_sig m rs theme
  have hlayers := congrArg Prod.fst hsig
  have hpmsrc := congrArg Prod.snd hsig
  simp only at hlayers hpmsrc
  have hids : ∀ L : List StyleLayer,
      L.map (fun l => l.id) = (L.map layerSig).map Prod.fst := by
    intro L
    rw [List.map_map]
    rfl
  refine ⟨by rw [hred], ?_, by rw [hred]; exact hpmsrc, by rw [hred]⟩
  rw [hred]
  simp only
  rw [hids, hids, hlayers]

/-- C6 witness: rebinding a concrete bound map with the same source leaves
its layer ids, source and refs unchanged. -/
theorem installBasemap_same_source_noop_witness :
    ¬ (("pmsrc.pmtiles" : String) = "") ∧
    ((installBasemap
        { layers := [{ id := "background", type := "background", source := "",
                       sourceLayer := "", paint := [("background-color", "#030712")],
                       layout := [] },
                     buildLayer waterDescriptor "waterway" darkTheme []],
          pmSource := some "pmtiles://pmsrc.pmtiles" }
        { layerIdsRef := [("water", "pm-water")], sourceUrlRef := some "pmsrc.pmtiles" }
        "pmsrc.pmtiles" ["waterway"] darkTheme []).2
      = { layerIdsRef := [("water", "pm-water")], sourceUrlRef := some "pmsrc.pmtiles" } ∧
     (installBasemap
        { layers := [{ id := "background", type := "background", source := "",
                       sourceLayer := "", paint := [("background-color", "#030712")],
                       layout := [] },
                     buildLayer waterDescriptor "waterway" darkTheme []],
          pmSource := some "pmtiles://pmsrc.pmtiles" }
        { layerIdsRef := [("water", "pm-water")], sourceUrlRef := some "pmsrc.pmtiles" }
        "pmsrc.pmtiles" ["waterway"] darkTheme []).1.layers.map (fun l => l.id)
      = ({ layers := [{ id := "background", type := "background", source := "",
                        sourceLayer := "", paint := [("background-color", "#030712")],
                        layout := [] },
                      buildLayer waterDescriptor "waterway" darkTheme []],
           pmSource := some "pmtiles://pmsrc.pmtiles" } : MapState).layers.map (fun l => l.id) ∧
     (installBasemap
        { layers := [{ id := "background", type := "background", source := "",
                       sourceLayer := "", paint := [("background-color", "#030712")],
                       layout := [] },
                     buildLayer waterDescriptor "waterway" darkTheme []],
          pmSource := some "pmtiles://pmsrc.pmtiles" }
        { layerIdsRef := [("water", "pm-water")], sourceUrlRef := some "pmsrc.pmtiles" }
        "pmsrc.pmtiles" ["waterway"] darkTheme []).1.pmSource
      = some "pmtiles://pmsrc.pmtiles" ∧
     (installBasemap
        { layers := [{ id := "background", type := "background", source := "",
                       sourceLayer := "", paint := [("background-color", "#030712")],
                       layout := [] },
                     buildLayer waterDescriptor "waterway" darkTheme []],
          pmSource := some "pmtiles://pmsrc.pmtiles" }
        { layerIdsRef := [("water", "pm-water")], sourceUrlRef := some "pmsrc.pmtiles" }
        "pmsrc.pmtiles" ["waterway"] darkTheme []).1
      = applyTheme
          { layers := [{ id := "background", type := "background", source := "",
                         sourceLayer := "", paint := [("background-color", "#030712")],
                         layout := [] },
                       buildLayer waterDescriptor "waterway" darkTheme []],
            pmSource := some "pmtiles://pmsrc.pmtiles" }
          { layerIdsRef := [("water", "pm-water")], sourceUrlRef := some "pmsrc.pmtiles" }
          darkTheme) :=
  ⟨by decide,
   installBasemap_same_source_noop
     { layers := [{ id := "background", type := "background", source := "",
                    sourceLayer := "", paint := [("background-color", "#030712")],
                    layout := [] },
                  buildLayer waterDescriptor "waterway" darkTheme []],
       pmSource := some "pmtiles://pmsrc.pmtiles" }
     { layerIdsRef := [("water", "pm-water")], sourceUrlRef := some "pmsrc.pmtiles" }
     "pmsrc.pmtiles" ["waterway"] darkTheme [] (by decide) (by decide) (by decide)⟩

/-! ## The matching loop of a rebuild -/

theorem countId_congr_sig (A B : List StyleLayer) (i : String)
    (h : A.map layerSig = B.map layerSig) : countId A i = countId B i := by
  unfold countId
  have hA : List.countP (fun l => l.id == i) A
      = List.countP (fun pr : String × String => pr.1 == i) (A.map layerSig) := by
    rw [List.countP_map]
    rfl
  have hB : List.countP (fun l => l.id == i) B
      = List.countP (fun pr : String × String => pr.1 == i) (B.map layerSig) := by
    rw [List.countP_map]
    rfl
  rw [hA, hB, h]

theorem foldl_installStep_layers (vl : List String) (theme : Theme)
    (en : List (String × Bool)) :
    ∀ (ds : List LayerDescriptor) (acc : MapState × RendererState),
      (∀ d ∈ ds, countId acc.1.layers ("pm-" ++ d.key) = 0) →
      List.Pairwise (fun d1 d2 => ¬ ("pm-" ++ d1.key = "pm-" ++ d2.key)) ds →
      (ds.foldl (installStep vl theme en) acc).1.layers
        = acc.1.layers
            ++ ds.filterMap (fun d =>
                 (roleMatch vl d).map (fun sl => buildLayer d sl theme en)) := by
  intro ds
  induction ds with
  | nil => intro acc _ _; simp
  | cons d rest ih =>
      intro acc h hp
      rcases List.pairwise_cons.mp hp with ⟨hd, hrest⟩
      rw [List.foldl_cons]
      cases hrm : roleMatch vl d with
      | none =>
          have hstep : installStep vl theme en acc d = acc := by
            unfold installStep
            rw [hrm]
          rw [hstep, ih acc (fun d2 hd2 => h d2 (List.mem_cons_of_mem _ hd2)) hrest,
              List.filterMap_cons, hrm]
          simp
      | some sl =>
          have hcount := h d (List.mem_cons_self _ _)
          have hfind : getLayer acc.1 ("pm-" ++ d.key) = none := by
            unfold getLayer
            rw [List.find?_eq_none]
            intro l hl
            exact List.countP_eq_zero.mp hcount l hl
          have hstep : installStep vl theme en acc d
              = (addLayer acc.1 (buildLayer d sl theme en),
                 { acc.2 with
                     layerIdsRef := setAssoc acc.2.layerIdsRef d.key
                       ("pm-" ++ d.key) }) := by
            unfold installStep
            rw [hrm]
            dsimp only
            rw [show (buildLayer d sl theme en).id = "pm-" ++ d.key from rfl, hfind]
            simp
          rw [hstep]
          have hnew : ∀ d2 ∈ rest,
              countId (addLayer acc.1 (buildLayer d sl theme en)).layers
                ("pm-" ++ d2.key) = 0 := by
            intro d2 hd2
            have hbeq : (("pm-" ++ d.key : String) == ("pm-" ++ d2.key)) = false := by
              rw [beq_eq_false_iff_ne]
              exact hd d2 hd2
            have h1 := h d2 (List.mem_cons_of_mem _ hd2)
            unfold countId at h1 ⊢
            unfold addLayer
            dsimp only
            rw [List.countP_append, h1]
            simp [List.countP_cons,
              show (buildLayer d sl theme en).id = "pm-" ++ d.key from rfl, hbeq]
          rw [ih _ hnew hrest, List.filterMap_cons, hrm]
          simp [addLayer]

theorem countId_builtLayersFor (vl : List String) (theme : Theme)
    (en : List (String × Bool)) (i : String) :
    countId (builtLayersFor vl theme en) i
      = List.countP (fun d => (roleMatch vl d).isSome && (("pm-" ++ d.key) == i))
          LAYER_DESCRIPTORS := by
  unfold countId builtLayersFor
  rw [List.countP_filterMap]
  refine List.countP_congr ?_
  intro d _
  cases hrm : roleMatch vl d <;>
    simp [hrm, buildLayer]

theorem installBasemap_fresh_sig (mpm : Option String) (bgl : StyleLayer)
    (src : String) (vl : List String) (theme : Theme) (en : List (String × Bool))
    (hsrc : ¬ (src = ""))
    (hbg : ∀ d ∈ LAYER_DESCRIPTORS, ¬ (bgl.id = "pm-" ++ d.key)) :
    (installBasemap ⟨[bgl], mpm⟩ ⟨[], none⟩ src vl theme en).1.layers.map layerSig
      = (bgl :: builtLayersFor vl theme en).map layerSig := by
  have hno : ∀ d ∈ LAYER_DESCRIPTORS, countId [bgl] ("pm-" ++ d.key) = 0 := by
    intro d hd
    have hbeq : (bgl.id == ("pm-" ++ d.key)) = false := by
      rw [beq_eq_false_iff_ne]
      exact hbg d hd
    simp [countId, List.countP_cons, hbeq]
  have hpair : List.Pairwise (fun d1 d2 : LayerDescriptor =>
      ¬ ("pm-" ++ d1.key = "pm-" ++ d2.key)) LAYER_DESCRIPTORS := by decide
  have hrem : removeLayers ⟨[bgl], mpm⟩ ⟨[], some src⟩
      = (⟨[bgl], none⟩, ⟨[], some src⟩) := by
    cases mpm <;> simp [removeLayers]
  have hc2 : ¬ ((⟨[], none⟩ : RendererState).sourceUrlRef = some src ∧
      (⟨[bgl], mpm⟩ : MapState).pmSource.isSome = true) := by
    simp
  unfold installBasemap
  rw [if_neg hsrc, if_neg hc2]
  dsimp only
  rw [hrem]
  dsimp only
  have hfold := foldl_installStep_layers vl theme en LAYER_DESCRIPTORS
      (⟨[bgl], some ("pmtiles://" ++ src)⟩, (⟨[], some src⟩ : RendererState))
      (by intro d hd; simpa using hno d hd) hpair
  have hsig := applyTheme_sig
      (LAYER_DESCRIPTORS.foldl (installStep vl theme en)
        (⟨[bgl], some ("pmtiles://" ++ src)⟩, (⟨[], some src⟩ : RendererState))).1
      (LAYER_DESCRIPTORS.foldl (installStep vl theme en)
        (⟨[bgl], some ("pmtiles://" ++ src)⟩, (⟨[], some src⟩ : RendererState))).2
      theme
  have hfst := congrArg Prod.fst hsig
  dsimp only at hfst
  rw [hfst, hfold]
  simp [builtLayersFor]

/-! ## C7: one style layer per matched role -/

/-- C7: starting from a freshly initialised map (only the background layer,
nothing tracked), a rebind adds at most one style layer per semantic role;
a metadata layer list containing "waterway" matches the water role
(substring "water") and produces exactly one water style layer, bound to the
first embedded metadata layer whose lowercased name contains one of the
role's keyword substrings; and a role with no matching metadata layer
produces no layer — the routine is a total function, so this is not an
error. -/
theorem installBasemap_role_layers (mpm : Option String) (bgl : StyleLayer)
    (src : String) (vl : List String) (theme : Theme) (en : List (String × Bool))
    (hsrc : ¬ (src = "")) (hbg : bgl.id = "background") :
    (∀ d ∈ LAYER_DESCRIPTORS,
      countId (installBasemap ⟨[bgl], mpm⟩ ⟨[], none⟩ src vl theme en).1.layers
        ("pm-" ++ d.key) ≤ 1) ∧
    ("waterway" ∈ vl →
      countId (installBasemap ⟨[bgl], mpm⟩ ⟨[], none⟩ src vl theme en).1.layers
        "pm-water" = 1 ∧
      (∀ l ∈ (installBasemap ⟨[bgl], mpm⟩ ⟨[], none⟩ src vl theme en).1.layers,
        l.id = "pm-water" → some l.sourceLayer = roleMatch vl waterDescriptor)) ∧
    (∀ d ∈ LAYER_DESCRIPTORS, roleMatch vl d = none →
      countId (installBasemap ⟨[bgl], mpm⟩ ⟨[], none⟩ src vl theme en).1.layers
        ("pm-" ++ d.key) = 0) := by
  have hbgall : ∀ d ∈ LAYER_DESCRIPTORS, ¬ (bgl.id = "pm-" ++ d.key) := by
    have h0 : ∀ d ∈ LAYER_DESCRIPTORS,
        ¬ (("background" : String) = "pm-" ++ d.key) := by decide
    intro d hd
    rw [hbg]
    exact h0 d hd
  have hsig := installBasemap_fresh_sig mpm bgl src vl theme en hsrc hbgall
  have hcnt : ∀ i,
      countId (installBasemap ⟨[bgl], mpm⟩ ⟨[], none⟩ src vl theme en).1.layers i
        = countId (bgl :: builtLayersFor vl theme en) i :=
    fun i => countId_congr_sig _ _ i hsig
  have hcons : ∀ d ∈ LAYER_DESCRIPTORS,
      countId (bgl :: builtLayersFor vl theme en) ("pm-" ++ d.key)
        = countId (builtLayersFor vl theme en) ("pm-" ++ d.key) := by
    intro d hd
    have hbeq : (bgl.id == ("pm-" ++ d.key)) = false := by
      rw [beq_eq_false_iff_ne]
      exact hbgall d hd
    simp [countId, List.countP_cons, hbeq]
  refine ⟨?_, ?_, ?_⟩
  · intro d hd
    rw [hcnt, hcons d hd, countId_builtLayersFor]
    simp only [LAYER_DESCRIPTORS, List.mem_cons, List.not_mem_nil, or_false] at hd
    rcases hd with rfl | rfl | rfl | rfl | rfl | rfl <;>
      simp [LAYER_DESCRIPTORS, List.countP_cons, List.countP_nil,
            show landDescriptor.key = "land" from rfl,
            show waterDescriptor.key = "water" from rfl,
            show roadsDescriptor.key = "roads" from rfl,
            show buildingsDescriptor.key = "buildings" from rfl,
            show boundariesDescriptor.key = "boundaries" from rfl,
            show labelsDescriptor.key = "labels" from rfl] <;>
      split <;> omega
  · intro hwv
    have hwmem : waterDescriptor ∈ LAYER_DESCRIPTORS :=
      List.mem_cons_of_mem _ (List.mem_cons_self _ _)
    have hws : (roleMatch vl waterDescriptor).isSome = true := by
      unfold roleMatch
      exact List.find?_isSome.mpr ⟨"waterway", hwv, by decide⟩
    constructor
    · rw [hcnt, show ("pm-water" : String) = "pm-" ++ waterDescriptor.key from rfl,
          hcons waterDescriptor hwmem, countId_builtLayersFor]
      simp [LAYER_DESCRIPTORS, List.countP_cons, List.countP_nil, hws,
            show landDescriptor.key = "land" from rfl,
            show waterDescriptor.key = "water" from rfl,
            show roadsDescriptor.key = "roads" from rfl,
            show buildingsDescriptor.key = "buildings" from rfl,
            show boundariesDescriptor.key = "boundaries" from rfl,
            show labelsDescriptor.key = "labels" from rfl]
    · intro l hl hid
      have hmem : layerSig l ∈ (bgl :: builtLayersFor vl theme en).map layerSig := by
        rw [← hsig]
        exact List.mem_map_of_mem _ hl
      rcases List.mem_map.mp hmem with ⟨l2, hl2, hsig2⟩
      have hid2 : l2.id = "pm-water" := by
        have h1 : l2.id = l.id := congrArg Prod.fst hsig2
        rw [h1, hid]
      have hsl2 : l2.sourceLayer = l.sourceLayer := congrArg Prod.snd hsig2
      rw [← hsl2]
      rcases List.mem_cons.mp hl2 with rfl | hl2b
      · rw [hbg] at hid2
        exact absurd hid2 (by decide)
      · have hl2c : ∃ d ∈ LAYER_DESCRIPTORS, ∃ sl, roleMatch vl d = some sl ∧
            buildLayer d sl theme en = l2 := by
          simpa [builtLayersFor, List.mem_filterMap, Option.map_eq_some'] using hl2b
        rcases hl2c with ⟨d, hdmem, sl, hsl, hbuild⟩
        have hkey : ("pm-" ++ d.key : String) = "pm-water" := by
          rw [← hid2, ← hbuild]
          rfl
        simp only [LAYER_DESCRIPTORS, List.mem_cons, List.not_mem_nil, or_false] at hdmem
        rcases hdmem with rfl | rfl | rfl | rfl | rfl | rfl
        · exact absurd hkey (by decide)
        · rw [← hbuild]
          show some sl = roleMatch vl waterDescriptor
          exact hsl.symm
        · exact absurd hkey (by decide)
        · exact absurd hkey (by decide)
        · exact absurd hkey (by decide)
        · exact absurd hkey (by decide)
  · intro d hd hnone
    rw [hcnt, hcons d hd, countId_builtLayersFor]
    simp only [LAYER_DESCRIPTORS, List.mem_cons, List.not_mem_nil, or_false] at hd
    rcases hd with rfl | rfl | rfl | rfl | rfl | rfl <;>
      simp [LAYER_DESCRIPTORS, List.countP_cons, List.countP_nil, hnone,
            show landDescriptor.key = "land" from rfl,
            show waterDescriptor.key = "water" from rfl,
            show roadsDescriptor.key = "roads" from rfl,
            show buildingsDescriptor.key = "buildings" from rfl,
            show boundariesDescriptor.key = "boundaries" from rfl,
            show labelsDescriptor.key = "labels" from rfl]

/-- C7 witness: a fresh rebind against metadata `["waterway"]` produces
exactly one water style layer and none for the land role. -/
theorem installBasemap_role_layers_witness :
    countId (installBasemap
        ⟨[{ id := "background", type := "background", source := "",
            sourceLayer := "", paint := [("background-color", "#030712")],
            layout := [] }], none⟩
        ⟨[], none⟩ "x.pmtiles" ["waterway"] darkTheme []).1.layers "pm-water" = 1 ∧
    countId (installBasemap
        ⟨[{ id := "background", type := "background", source := "",
            sourceLayer := "", paint := [("background-color", "#030712")],
            layout := [] }], none⟩
        ⟨[], none⟩ "x.pmtiles" ["waterway"] darkTheme []).1.layers
      ("pm-" ++ landDescriptor.key) = 0 :=
  ⟨((installBasemap_role_layers none
      { id := "background", type := "background", source := "",
        sourceLayer := "", paint := [("background-color", "#030712")],
        layout := [] }
      "x.pmtiles" ["waterway"] darkTheme [] (by decide) rfl).2.1
      (by decide)).1,
   (installBasemap_role_layers none
      { id := "background", type := "background", source := "",
        sourceLayer := "", paint := [("background-color", "#030712")],
        layout := [] }
      "x.pmtiles" ["waterway"] darkTheme [] (by decide) rfl).2.2
      landDescriptor (List.mem_cons_self _ _) (by decide)⟩
